import Mathlib

/-!
Shallow embedding of the suiviPDR server (Express + Drizzle/PostgreSQL).

The embedding covers the relational schema (`shared/schema.ts`), the
`DatabaseStorage` class (`server/storage.ts`) and the role-gated REST route
layer (`server/routes.ts`, the version carrying the `requireRole` /
`canWrite` / `canManageUsers` / `canRead` middleware).

Modelling conventions:
- PostgreSQL tables are lists of rows in insertion order; `serial` primary
  keys are explicit per-table counters on the store.
- `decimal(15,2)` columns and timestamps are modelled as `Int` (scaled
  decimal / epoch instants); `date` columns likewise.
- A SQL `ORDER BY` on a single column is modelled as a stable sort
  (`List.insertionSort`) of the table rows by that column.
- JSON response bodies are modelled by an explicit `Json` value type;
  `res.json(undefined)` (Express sends an empty 200 body) is modelled as
  `Json.null`, as is the empty body of `res.status(204).send()`.
- The bcrypt library is external; it is modelled as a deterministic tagged
  encoding (`bcryptHash`) with the comparison contract of `bcrypt.compare`.
-/

namespace SuiviPDR

/-! ## JSON values -/

inductive Json where
  | null : Json
  | bool : Bool → Json
  | num : Int → Json
  | str : String → Json
  | arr : List Json → Json
  | obj : List (String × Json) → Json
  deriving Repr, BEq

/-! ## Entity rows (shared/schema.ts) -/

/-- Row of the `local_users` table. -/
structure LocalUser where
  id : Nat
  username : String
  password : String
  role : String
  createdAt : Int
  updatedAt : Int
  deriving Repr, DecidableEq

/-- Row of the `projects` table. -/
structure Project where
  id : Nat
  identifier : String
  title : String
  axis : String
  domain : String
  region : String
  province : String
  commune : String
  budget : Int
  engagements : Int
  payments : Int
  physicalProgress : Int
  status : String
  createdAt : Int
  updatedAt : Int
  deriving Repr, DecidableEq

/-- Row of the `conventions` table. -/
structure Convention where
  id : Nat
  title : String
  dateVisa : Option Int
  status : String
  programme : String
  documentUrl : Option String
  createdAt : Int
  updatedAt : Int
  deriving Repr, DecidableEq

/-- Row of the `partners` table. -/
structure Partner where
  id : Nat
  name : String
  type : String
  createdAt : Int
  deriving Repr, DecidableEq

/-- Row of the `project_partners` junction table. -/
structure ProjectPartner where
  id : Nat
  projectId : Nat
  partnerId : Nat
  year : Int
  plannedContribution : Int
  actualContribution : Int
  status : String
  deriving Repr, DecidableEq

/-- Row of the `convention_projects` junction table. -/
structure ConventionProject where
  id : Nat
  conventionId : Nat
  projectId : Nat
  createdAt : Int
  deriving Repr, DecidableEq

/-- Row of the `financial_advances` table. -/
structure FinancialAdvance where
  id : Nat
  projectId : Nat
  referenceDate : Int
  engagement : Int
  payment : Int
  createdAt : Int
  deriving Repr, DecidableEq

/-! ## Validated insert payloads (drizzle-zod insert schemas, after parsing,
with column defaults already applied) -/

/-- `insertLocalUserSchema` output. -/
structure InsertLocalUser where
  username : String
  password : String
  role : String
  deriving Repr, DecidableEq

/-- `insertProjectSchema` output. -/
structure InsertProject where
  identifier : String
  title : String
  axis : String
  domain : String
  region : String
  province : String
  commune : String
  budget : Int
  engagements : Int
  payments : Int
  physicalProgress : Int
  status : String
  deriving Repr, DecidableEq

/-- `insertConventionSchema` output. -/
structure InsertConvention where
  title : String
  dateVisa : Option Int
  status : String
  programme : String
  documentUrl : Option String
  deriving Repr, DecidableEq

/-- `insertPartnerSchema` output. -/
structure InsertPartner where
  name : String
  type : String
  deriving Repr, DecidableEq

/-- `insertProjectPartnerSchema` output. -/
structure InsertProjectPartner where
  projectId : Nat
  partnerId : Nat
  year : Int
  plannedContribution : Int
  actualContribution : Int
  status : String
  deriving Repr, DecidableEq

/-- `insertConventionProjectSchema` output. -/
structure InsertConventionProject where
  conventionId : Nat
  projectId : Nat
  deriving Repr, DecidableEq

/-- `insertFinancialAdvanceSchema` output. -/
structure InsertFinancialAdvance where
  projectId : Nat
  referenceDate : Int
  engagement : Int
  payment : Int
  deriving Repr, DecidableEq

/-- Update payload for `insertProjectSchema.partial().parse` (all fields
optional, present fields already validated). -/
structure ProjectPatch where
  identifier : Option String := none
  title : Option String := none
  axis : Option String := none
  domain : Option String := none
  region : Option String := none
  province : Option String := none
  commune : Option String := none
  budget : Option Int := none
  engagements : Option Int := none
  payments : Option Int := none
  physicalProgress : Option Int := none
  status : Option String := none
  deriving Repr, DecidableEq

/-- Update payload for `insertConventionSchema.partial().parse`. -/
structure ConventionPatch where
  title : Option String := none
  dateVisa : Option (Option Int) := none
  status : Option String := none
  programme : Option String := none
  documentUrl : Option (Option String) := none
  deriving Repr, DecidableEq

/-- Update payload for `insertLocalUserSchema.partial().parse`. -/
structure LocalUserPatch where
  username : Option String := none
  password : Option String := none
  role : Option String := none
  deriving Repr, DecidableEq

/-! ## The relational store -/

/-- The persistent database state: one list per table (rows in insertion
order) plus the `serial` id sequences. -/
structure Store where
  localUsers : List LocalUser := []
  projects : List Project := []
  conventions : List Convention := []
  partners : List Partner := []
  projectPartners : List ProjectPartner := []
  conventionProjects : List ConventionProject := []
  financialAdvances : List FinancialAdvance := []
  nextLocalUserId : Nat := 1
  nextProjectId : Nat := 1
  nextConventionId : Nat := 1
  nextPartnerId : Nat := 1
  nextProjectPartnerId : Nat := 1
  nextConventionProjectId : Nat := 1
  nextFinancialAdvanceId : Nat := 1
  deriving Repr, DecidableEq

/-- Database-level failure surfaced to the storage layer: here only unique
constraint violations (`projects.identifier`, `local_users.username`). -/
inductive DbError where
  | uniqueViolation : DbError
  deriving Repr, DecidableEq

/-! ## bcrypt model

bcrypt is an external library (`import bcrypt from 'bcrypt'`). It is
modelled as a deterministic tagged encoding: `bcrypt.hash(p, 10)` becomes
`"$2b$10$" ++ p` and `bcrypt.compare(p, h)` checks `h` against the hash of
`p`. The model keeps the two contract facts the code relies on: comparing a
password against its own hash succeeds and against any other hash fails,
and a hash is never equal to the plaintext it encodes. -/

def bcryptHash (password : String) : String :=
  "$2b$10$" ++ password

def bcryptCompare (password hash : String) : Bool :=
  hash == bcryptHash password

/-! ## Sorting machinery for `getProjects`

`ORDER BY column ASC|DESC` over a key drawn from a linear order, modelled
as a stable insertion sort of the rows. -/

/-- Ascending comparison on the image of a key function. -/
def keyAsc {κ : Type} [LinearOrder κ] (k : Project → κ) : Project → Project → Prop :=
  fun a b => k a ≤ k b

/-- Descending comparison on the image of a key function. -/
def keyDesc {κ : Type} [LinearOrder κ] (k : Project → κ) : Project → Project → Prop :=
  fun a b => k b ≤ k a

instance {κ : Type} [LinearOrder κ] (k : Project → κ) : DecidableRel (keyAsc k) :=
  fun a b => inferInstanceAs (Decidable (k a ≤ k b))

instance {κ : Type} [LinearOrder κ] (k : Project → κ) : DecidableRel (keyDesc k) :=
  fun a b => inferInstanceAs (Decidable (k b ≤ k a))

instance {κ : Type} [LinearOrder κ] (k : Project → κ) : IsTotal Project (keyAsc k) :=
  ⟨fun a b => le_total (k a) (k b)⟩

instance {κ : Type} [LinearOrder κ] (k : Project → κ) : IsTrans Project (keyAsc k) :=
  ⟨fun _ _ _ h1 h2 => le_trans h1 h2⟩

instance {κ : Type} [LinearOrder κ] (k : Project → κ) : IsTotal Project (keyDesc k) :=
  ⟨fun a b => le_total (k b) (k a)⟩

instance {κ : Type} [LinearOrder κ] (k : Project → κ) : IsTrans Project (keyDesc k) :=
  ⟨fun _ _ _ h1 h2 => le_trans h2 h1⟩

/-- `orderBy(orderFunc(column))`: stable sort of the rows by the column
key, descending when `isDesc`. -/
def sortKey {κ : Type} [LinearOrder κ] (isDesc : Bool) (k : Project → κ)
    (rows : List Project) : List Project :=
  if isDesc then List.insertionSort (keyDesc k) rows
  else List.insertionSort (keyAsc k) rows

/-- `like(projects.title, '%search%')`: substring containment. -/
def likeContains (pat s : String) : Bool :=
  (s.splitOn pat).length > 1

/-! ## DatabaseStorage (server/storage.ts) -/

/-- The `if (search) query.where(like(projects.title, ...))` step of
`DatabaseStorage.getProjects`; JavaScript truthiness makes the empty
string behave like an absent search. -/
def searchFilter (search : Option String) (rows : List Project) :
    List Project :=
  match search with
  | some q => if q == "" then rows
              else rows.filter (fun p => likeContains q p.title)
  | none => rows

/-- `DatabaseStorage.getProjects(search?, sortBy?, sortOrder = "asc")`.
The arguments arrive from the query string, so they are optional strings;
`sortOrder` selects `desc` exactly when it is the literal string `"desc"`
(the declared default is `"asc"`), and an unrecognized or empty `sortBy`
falls through to ordering by `createdAt`. -/
def getProjects (s : Store) (search sortBy sortOrder : Option String) :
    List Project :=
  let rows := searchFilter search s.projects
  let isDesc := sortOrder == some "desc"
  match sortBy with
  | some b =>
    if b == "" then sortKey isDesc (fun p => p.createdAt) rows
    else match b with
      | "identifier" => sortKey isDesc (fun p => p.identifier) rows
      | "title" => sortKey isDesc (fun p => p.title) rows
      | "axis" => sortKey isDesc (fun p => p.axis) rows
      | "domain" => sortKey isDesc (fun p => p.domain) rows
      | "budget" => sortKey isDesc (fun p => p.budget) rows
      | _ => sortKey isDesc (fun p => p.createdAt) rows
  | none => sortKey isDesc (fun p => p.createdAt) rows

/-- `DatabaseStorage.getProject(id)`. -/
def getProject (s : Store) (id : Nat) : Option Project :=
  s.projects.find? (fun p => p.id == id)

/-- `DatabaseStorage.getProjectByIdentifier(identifier)`. -/
def getProjectByIdentifier (s : Store) (identifier : String) : Option Project :=
  s.projects.find? (fun p => p.identifier == identifier)

/-- `DatabaseStorage.createProject(project)`: a plain insert; the
`projects.identifier` unique constraint makes the database reject a
duplicate identifier, which surfaces as a thrown (non-Zod) error. -/
def createProject (s : Store) (ins : InsertProject) (now : Int) :
    Except DbError (Project × Store) :=
  if s.projects.any (fun p => p.identifier == ins.identifier) then
    .error .uniqueViolation
  else
    let p : Project :=
      { id := s.nextProjectId, identifier := ins.identifier,
        title := ins.title, axis := ins.axis, domain := ins.domain,
        region := ins.region, province := ins.province,
        commune := ins.commune, budget := ins.budget,
        engagements := ins.engagements, payments := ins.payments,
        physicalProgress := ins.physicalProgress, status := ins.status,
        createdAt := now, updatedAt := now }
    .ok (p, { s with projects := s.projects ++ [p],
                     nextProjectId := s.nextProjectId + 1 })

/-- `{ ...project, updatedAt: new Date() }` merged onto an existing row. -/
def applyProjectPatch (p : Project) (q : ProjectPatch) (now : Int) : Project :=
  { p with
    identifier := q.identifier.getD p.identifier,
    title := q.title.getD p.title,
    axis := q.axis.getD p.axis,
    domain := q.domain.getD p.domain,
    region := q.region.getD p.region,
    province := q.province.getD p.province,
    commune := q.commune.getD p.commune,
    budget := q.budget.getD p.budget,
    engagements := q.engagements.getD p.engagements,
    payments := q.payments.getD p.payments,
    physicalProgress := q.physicalProgress.getD p.physicalProgress,
    status := q.status.getD p.status,
    updatedAt := now }

/-- `DatabaseStorage.updateProject(id, project)`: `UPDATE ... RETURNING`
destructured with `const [updatedProject] = ...`; when no row matches the
id the result is `undefined`, modelled as `none`. -/
def updateProject (s : Store) (id : Nat) (q : ProjectPatch) (now : Int) :
    Option (Project × Store) :=
  match s.projects.find? (fun p => p.id == id) with
  | none => none
  | some p =>
    let p' := applyProjectPatch p q now
    some (p', { s with
      projects := s.projects.map (fun r => if r.id == id then p' else r) })

/-- `DatabaseStorage.deleteProject(id)`: unconditional `DELETE`; no error
when the id does not exist. -/
def deleteProject (s : Store) (id : Nat) : Store :=
  { s with projects := s.projects.filter (fun p => !(p.id == id)) }

/-- `DatabaseStorage.getConventions()`: `ORDER BY created_at DESC`. -/
def getConventions (s : Store) : List Convention :=
  List.insertionSort (fun a b : Convention => b.createdAt ≤ a.createdAt)
    s.conventions

/-- `DatabaseStorage.getConvention(id)`. -/
def getConvention (s : Store) (id : Nat) : Option Convention :=
  s.conventions.find? (fun c => c.id == id)

/-- `DatabaseStorage.createConvention(convention)`. -/
def createConvention (s : Store) (ins : InsertConvention) (now : Int) :
    Convention × Store :=
  let c : Convention :=
    { id := s.nextConventionId, title := ins.title,
      dateVisa := ins.dateVisa, status := ins.status,
      programme := ins.programme, documentUrl := ins.documentUrl,
      createdAt := now, updatedAt := now }
  (c, { s with conventions := s.conventions ++ [c],
               nextConventionId := s.nextConventionId + 1 })

/-- `{ ...convention, updatedAt: new Date() }` merged onto a row. -/
def applyConventionPatch (c : Convention) (q : ConventionPatch) (now : Int) :
    Convention :=
  { c with
    title := q.title.getD c.title,
    dateVisa := q.dateVisa.getD c.dateVisa,
    status := q.status.getD c.status,
    programme := q.programme.getD c.programme,
    documentUrl := q.documentUrl.getD c.documentUrl,
    updatedAt := now }

/-- `DatabaseStorage.updateConvention(id, convention)`. -/
def updateConvention (s : Store) (id : Nat) (q : ConventionPatch) (now : Int) :
    Option (Convention × Store) :=
  match s.conventions.find? (fun c => c.id == id) with
  | none => none
  | some c =>
    let c' := applyConventionPatch c q now
    some (c', { s with
      conventions := s.conventions.map (fun r => if r.id == id then c' else r) })

/-- `DatabaseStorage.deleteConvention(id)`. -/
def deleteConvention (s : Store) (id : Nat) : Store :=
  { s with conventions := s.conventions.filter (fun c => !(c.id == id)) }

/-- `DatabaseStorage.getPartners()`: `ORDER BY name ASC`. -/
def getPartners (s : Store) : List Partner :=
  List.insertionSort (fun a b : Partner => a.name ≤ b.name) s.partners

/-- `DatabaseStorage.getPartner(id)`. -/
def getPartner (s : Store) (id : Nat) : Option Partner :=
  s.partners.find? (fun p => p.id == id)

/-- `DatabaseStorage.createPartner(partner)`. -/
def createPartner (s : Store) (ins : InsertPartner) (now : Int) :
    Partner × Store :=
  let p : Partner :=
    { id := s.nextPartnerId, name := ins.name, type := ins.type,
      createdAt := now }
  (p, { s with partners := s.partners ++ [p],
               nextPartnerId := s.nextPartnerId + 1 })

/-- `DatabaseStorage.getProjectPartners(projectId)`: rows of
`project_partners` for the project, left-joined with their `Partner`
(the source applies a non-null assertion `row.partners!`; a missing
partner is modelled as `none`). -/
def getProjectPartners (s : Store) (projectId : Nat) :
    List (ProjectPartner × Option Partner) :=
  (s.projectPartners.filter (fun pp => pp.projectId == projectId)).map
    (fun pp => (pp, s.partners.find? (fun p => p.id == pp.partnerId)))

/-- `DatabaseStorage.createProjectPartner(projectPartner)`: no unique
constraint beyond the serial primary key, so the insert always succeeds. -/
def createProjectPartner (s : Store) (ins : InsertProjectPartner) :
    ProjectPartner × Store :=
  let pp : ProjectPartner :=
    { id := s.nextProjectPartnerId, projectId := ins.projectId,
      partnerId := ins.partnerId, year := ins.year,
      plannedContribution := ins.plannedContribution,
      actualContribution := ins.actualContribution, status := ins.status }
  (pp, { s with projectPartners := s.projectPartners ++ [pp],
                nextProjectPartnerId := s.nextProjectPartnerId + 1 })

/-- `DatabaseStorage.getConventionProjects(conventionId)`. -/
def getConventionProjects (s : Store) (conventionId : Nat) :
    List (ConventionProject × Option Project) :=
  (s.conventionProjects.filter (fun cp => cp.conventionId == conventionId)).map
    (fun cp => (cp, s.projects.find? (fun p => p.id == cp.projectId)))

/-- `DatabaseStorage.createConventionProject(conventionProject)`. -/
def createConventionProject (s : Store) (ins : InsertConventionProject)
    (now : Int) : ConventionProject × Store :=
  let cp : ConventionProject :=
    { id := s.nextConventionProjectId, conventionId := ins.conventionId,
      projectId := ins.projectId, createdAt := now }
  (cp, { s with conventionProjects := s.conventionProjects ++ [cp],
                nextConventionProjectId := s.nextConventionProjectId + 1 })

/-- `DatabaseStorage.getFinancialAdvances(projectId)`:
`ORDER BY reference_date DESC`. -/
def getFinancialAdvances (s : Store) (projectId : Nat) :
    List FinancialAdvance :=
  List.insertionSort
    (fun a b : FinancialAdvance => b.referenceDate ≤ a.referenceDate)
    (s.financialAdvances.filter (fun a => a.projectId == projectId))

/-- `DatabaseStorage.createFinancialAdvance(financialAdvance)`. -/
def createFinancialAdvance (s : Store) (ins : InsertFinancialAdvance)
    (now : Int) : FinancialAdvance × Store :=
  let a : FinancialAdvance :=
    { id := s.nextFinancialAdvanceId, projectId := ins.projectId,
      referenceDate := ins.referenceDate, engagement := ins.engagement,
      payment := ins.payment, createdAt := now }
  (a, { s with financialAdvances := s.financialAdvances ++ [a],
               nextFinancialAdvanceId := s.nextFinancialAdvanceId + 1 })

/-- `DatabaseStorage.getLocalUser(username)`. -/
def getLocalUser (s : Store) (username : String) : Option LocalUser :=
  s.localUsers.find? (fun u => u.username == username)

/-- `DatabaseStorage.createLocalUser(user)`: hashes the password with
`bcrypt.hash(user.password, 10)` before the insert; the
`local_users.username` unique constraint rejects a duplicate username. -/
def createLocalUser (s : Store) (ins : InsertLocalUser) (now : Int) :
    Except DbError (LocalUser × Store) :=
  if s.localUsers.any (fun u => u.username == ins.username) then
    .error .uniqueViolation
  else
    let u : LocalUser :=
      { id := s.nextLocalUserId, username := ins.username,
        password := bcryptHash ins.password, role := ins.role,
        createdAt := now, updatedAt := now }
    .ok (u, { s with localUsers := s.localUsers ++ [u],
                     nextLocalUserId := s.nextLocalUserId + 1 })

/-- `DatabaseStorage.validateLocalUser(username, password)`: fetch by
username, then `bcrypt.compare(password, user.password)`. -/
def validateLocalUser (s : Store) (username password : String) :
    Option LocalUser :=
  match s.localUsers.find? (fun u => u.username == username) with
  | none => none
  | some u => if bcryptCompare password u.password then some u else none

/-- Modelled from the spec: `DatabaseStorage.getLocalUsers` is called by
`GET /api/users` but its definition is not under `src/`; per §6 the route
lists the LocalUser accounts. -/
def getLocalUsers (s : Store) : List LocalUser :=
  s.localUsers

/-- Modelled from the spec: `DatabaseStorage.updateLocalUser` is called by
`PUT /api/users/:id` but its definition is not under `src/`; per §4.3 an
update merges the provided fields, refreshes `updatedAt`, treats an absent
or empty password as "leave unchanged" (a present password is one-way
hashed), and yields nothing when the id does not exist. -/
def updateLocalUser (s : Store) (id : Nat) (q : LocalUserPatch) (now : Int) :
    Option (LocalUser × Store) :=
  match s.localUsers.find? (fun u => u.id == id) with
  | none => none
  | some u =>
    let newPassword := match q.password with
      | none => u.password
      | some pw => if pw == "" then u.password else bcryptHash pw
    let u' : LocalUser :=
      { u with username := q.username.getD u.username,
               password := newPassword, role := q.role.getD u.role,
               updatedAt := now }
    some (u', { s with
      localUsers := s.localUsers.map (fun r => if r.id == id then u' else r) })

/-- Modelled from the spec: `DatabaseStorage.deleteLocalUser` is called by
`DELETE /api/users/:id` but its definition is not under `src/`; per §3 the
entity is removed via hard delete. -/
def deleteLocalUser (s : Store) (id : Nat) : Store :=
  { s with localUsers := s.localUsers.filter (fun u => !(u.id == id)) }

/-! ## JSON serialization of `res.json(...)` payloads -/

def optIntJson : Option Int → Json
  | none => .null
  | some n => .num n

def optStrJson : Option String → Json
  | none => .null
  | some s => .str s

/-- `res.json(req.session.localUser)`: the complete stored record,
password column included. -/
def localUserFullJson (u : LocalUser) : Json :=
  .obj [("id", .num u.id), ("username", .str u.username),
        ("password", .str u.password), ("role", .str u.role),
        ("createdAt", .num u.createdAt), ("updatedAt", .num u.updatedAt)]

/-- `{ id: u.id, username: u.username, role: u.role, createdAt: u.createdAt }`
as produced by the `/api/users` routes. -/
def localUserStrippedJson (u : LocalUser) : Json :=
  .obj [("id", .num u.id), ("username", .str u.username),
        ("role", .str u.role), ("createdAt", .num u.createdAt)]

/-- `{ id: user.id, username: user.username, role: user.role }` inside the
login response. -/
def loginUserJson (u : LocalUser) : Json :=
  .obj [("id", .num u.id), ("username", .str u.username),
        ("role", .str u.role)]

def projectJson (p : Project) : Json :=
  .obj [("id", .num p.id), ("identifier", .str p.identifier),
        ("title", .str p.title), ("axis", .str p.axis),
        ("domain", .str p.domain), ("region", .str p.region),
        ("province", .str p.province), ("commune", .str p.commune),
        ("budget", .num p.budget), ("engagements", .num p.engagements),
        ("payments", .num p.payments),
        ("physicalProgress", .num p.physicalProgress),
        ("status", .str p.status), ("createdAt", .num p.createdAt),
        ("updatedAt", .num p.updatedAt)]

def conventionJson (c : Convention) : Json :=
  .obj [("id", .num c.id), ("title", .str c.title),
        ("dateVisa", optIntJson c.dateVisa), ("status", .str c.status),
        ("programme", .str c.programme),
        ("documentUrl", optStrJson c.documentUrl),
        ("createdAt", .num c.createdAt), ("updatedAt", .num c.updatedAt)]

def partnerJson (p : Partner) : Json :=
  .obj [("id", .num p.id), ("name", .str p.name), ("type", .str p.type),
        ("createdAt", .num p.createdAt)]

def projectPartnerJson (pp : ProjectPartner) : Json :=
  .obj [("id", .num pp.id), ("projectId", .num pp.projectId),
        ("partnerId", .num pp.partnerId), ("year", .num pp.year),
        ("plannedContribution", .num pp.plannedContribution),
        ("actualContribution", .num pp.actualContribution),
        ("status", .str pp.status)]

/-- `{ ...row.project_partners, partner: row.partners! }`. -/
def projectPartnerJoinedJson (x : ProjectPartner × Option Partner) : Json :=
  .obj [("id", .num x.1.id), ("projectId", .num x.1.projectId),
        ("partnerId", .num x.1.partnerId), ("year", .num x.1.year),
        ("plannedContribution", .num x.1.plannedContribution),
        ("actualContribution", .num x.1.actualContribution),
        ("status", .str x.1.status),
        ("partner", match x.2 with
                    | some p => partnerJson p
                    | none => .null)]

def conventionProjectJson (cp : ConventionProject) : Json :=
  .obj [("id", .num cp.id), ("conventionId", .num cp.conventionId),
        ("projectId", .num cp.projectId), ("createdAt", .num cp.createdAt)]

/-- `{ ...row.convention_projects, project: row.projects! }`. -/
def conventionProjectJoinedJson (x : ConventionProject × Option Project) :
    Json :=
  .obj [("id", .num x.1.id), ("conventionId", .num x.1.conventionId),
        ("projectId", .num x.1.projectId), ("createdAt", .num x.1.createdAt),
        ("project", match x.2 with
                    | some p => projectJson p
                    | none => .null)]

def financialAdvanceJson (a : FinancialAdvance) : Json :=
  .obj [("id", .num a.id), ("projectId", .num a.projectId),
        ("referenceDate", .num a.referenceDate),
        ("engagement", .num a.engagement), ("payment", .num a.payment),
        ("createdAt", .num a.createdAt)]

/-! ## Route layer (server/routes.ts) -/

/-- An HTTP response: status code plus JSON body. An empty body
(`res.status(204).send()`, `res.json(undefined)`) is `Json.null`. -/
structure Response where
  status : Nat
  body : Json
  deriving Repr, BEq

/-- Request body of `POST /api/projects/:id/partners`
(`insertProjectPartnerSchema.parse({ ...req.body, projectId })` — the
`projectId` comes from the path). -/
structure ProjectPartnerBody where
  partnerId : Nat
  year : Int
  plannedContribution : Int
  actualContribution : Int
  status : String
  deriving Repr, DecidableEq

/-- Request body of `POST /api/conventions/:id/projects`. -/
structure ConventionProjectBody where
  projectId : Nat
  deriving Repr, DecidableEq

/-- Request body of `POST /api/projects/:id/financial-advances`. -/
structure FinancialAdvanceBody where
  referenceDate : Int
  engagement : Int
  payment : Int
  deriving Repr, DecidableEq

/-- One request to the REST surface, with its parsed payload. -/
inductive Request where
  | login (username password : String)
  | logout
  | authUser
  | projectsIndex (search sortBy sortOrder : Option String)
  | projectsShow (id : Nat)
  | projectsCreate (body : InsertProject)
  | projectsUpdate (id : Nat) (body : ProjectPatch)
  | projectsDestroy (id : Nat)
  | conventionsIndex
  | conventionsShow (id : Nat)
  | conventionsCreate (body : InsertConvention)
  | conventionsUpdate (id : Nat) (body : ConventionPatch)
  | conventionsDestroy (id : Nat)
  | partnersIndex
  | partnersCreate (body : InsertPartner)
  | projectPartnersIndex (projectId : Nat)
  | projectPartnersCreate (projectId : Nat) (body : ProjectPartnerBody)
  | conventionProjectsIndex (conventionId : Nat)
  | conventionProjectsCreate (conventionId : Nat) (body : ConventionProjectBody)
  | usersIndex
  | usersCreate (body : InsertLocalUser)
  | usersUpdate (id : Nat) (body : LocalUserPatch)
  | usersDestroy (id : Nat)
  | advancesIndex (projectId : Nat)
  | advancesCreate (projectId : Nat) (body : FinancialAdvanceBody)
  deriving Repr, DecidableEq

def unauthorizedResponse : Response :=
  ⟨401, .obj [("message", .str "Unauthorized")]⟩

def forbiddenResponse : Response :=
  ⟨403, .obj [("message", .str "Insufficient permissions")]⟩

/-- The `requireRole(roles)` middleware: `401` without a session user,
`403` when the session user's role is not in `roles`, otherwise pass. -/
def requireRole (roles : List String) (session : Option LocalUser) :
    Option Response :=
  match session with
  | none => some unauthorizedResponse
  | some u =>
    if roles.contains u.role then none else some forbiddenResponse

/-- The `requireAuth` middleware: any session user passes. -/
def requireAuth (session : Option LocalUser) : Option Response :=
  match session with
  | none => some unauthorizedResponse
  | some _ => none

/-- `const canWrite = requireRole(['admin', 'user'])`. -/
def canWrite : Option LocalUser → Option Response :=
  requireRole ["admin", "user"]

/-- `const canManageUsers = requireRole(['admin'])`. -/
def canManageUsers : Option LocalUser → Option Response :=
  requireRole ["admin"]

/-- `const canRead = requireRole(['admin', 'user', 'superviseur'])`. -/
def canRead : Option LocalUser → Option Response :=
  requireRole ["admin", "user", "superviseur"]

/-- The outcome of one request: the response, the resulting store, and the
resulting session principal. -/
abbrev Outcome := Response × Store × Option LocalUser

/-- Run the route handler `k` unless the middleware `check` short-circuits
with an error response (in which case the store and session are untouched). -/
def guarded (check : Option Response) (s : Store) (session : Option LocalUser)
    (k : Unit → Outcome) : Outcome :=
  match check with
  | some r => (r, s, session)
  | none => k ()

/-- The whole route table of `registerRoutes`: dispatch one request against
the store with the given session, at instant `now`. -/
def handle (req : Request) (session : Option LocalUser) (s : Store)
    (now : Int) : Outcome :=
  match req with
  | .login username password =>
    if username == "" || password == "" then
      (⟨400, .obj [("message", .str "Username and password are required")]⟩,
       s, session)
    else
      match validateLocalUser s username password with
      | none =>
        (⟨401, .obj [("message", .str "Invalid credentials")]⟩, s, session)
      | some u =>
        (⟨200, .obj [("message", .str "Login successful"),
                     ("user", loginUserJson u)]⟩, s, some u)
  | .logout =>
    (⟨200, .obj [("message", .str "Logout successful")]⟩, s, none)
  | .authUser =>
    match session with
    | some u => (⟨200, localUserFullJson u⟩, s, session)
    | none => (unauthorizedResponse, s, session)
  | .projectsIndex search sortBy sortOrder =>
    guarded (canRead session) s session fun _ =>
      (⟨200, .arr ((getProjects s search sortBy sortOrder).map projectJson)⟩,
       s, session)
  | .projectsShow id =>
    guarded (canRead session) s session fun _ =>
      match getProject s id with
      | none => (⟨404, .obj [("message", .str "Project not found")]⟩, s, session)
      | some p => (⟨200, projectJson p⟩, s, session)
  | .projectsCreate body =>
    guarded (canWrite session) s session fun _ =>
      match createProject s body now with
      | .error _ =>
        (⟨500, .obj [("message", .str "Failed to create project")]⟩, s, session)
      | .ok (p, s') => (⟨201, projectJson p⟩, s', session)
  | .projectsUpdate id body =>
    guarded (canWrite session) s session fun _ =>
      match updateProject s id body now with
      | none => (⟨200, .null⟩, s, session)
      | some (p, s') => (⟨200, projectJson p⟩, s', session)
  | .projectsDestroy id =>
    guarded (canWrite session) s session fun _ =>
      (⟨204, .null⟩, deleteProject s id, session)
  | .conventionsIndex =>
    guarded (canRead session) s session fun _ =>
      (⟨200, .arr ((getConventions s).map conventionJson)⟩, s, session)
  | .conventionsShow id =>
    guarded (canRead session) s session fun _ =>
      match getConvention s id with
      | none =>
        (⟨404, .obj [("message", .str "Convention not found")]⟩, s, session)
      | some c => (⟨200, conventionJson c⟩, s, session)
  | .conventionsCreate body =>
    guarded (canWrite session) s session fun _ =>
      let (c, s') := createConvention s body now
      (⟨201, conventionJson c⟩, s', session)
  | .conventionsUpdate id body =>
    guarded (canWrite session) s session fun _ =>
      match updateConvention s id body now with
      | none => (⟨200, .null⟩, s, session)
      | some (c, s') => (⟨200, conventionJson c⟩, s', session)
  | .conventionsDestroy id =>
    guarded (canWrite session) s session fun _ =>
      (⟨204, .null⟩, deleteConvention s id, session)
  | .partnersIndex =>
    guarded (canRead session) s session fun _ =>
      (⟨200, .arr ((getPartners s).map partnerJson)⟩, s, session)
  | .partnersCreate body =>
    guarded (canWrite session) s session fun _ =>
      let (p, s') := createPartner s body now
      (⟨201, partnerJson p⟩, s', session)
  | .projectPartnersIndex projectId =>
    guarded (requireAuth session) s session fun _ =>
      (⟨200, .arr ((getProjectPartners s projectId).map
                    projectPartnerJoinedJson)⟩, s, session)
  | .projectPartnersCreate projectId body =>
    guarded (requireAuth session) s session fun _ =>
      let ins : InsertProjectPartner :=
        { projectId := projectId, partnerId := body.partnerId,
          year := body.year,
          plannedContribution := body.plannedContribution,
          actualContribution := body.actualContribution,
          status := body.status }
      let (pp, s') := createProjectPartner s ins
      (⟨201, projectPartnerJson pp⟩, s', session)
  | .conventionProjectsIndex conventionId =>
    guarded (requireAuth session) s session fun _ =>
      (⟨200, .arr ((getConventionProjects s conventionId).map
                    conventionProjectJoinedJson)⟩, s, session)
  | .conventionProjectsCreate conventionId body =>
    guarded (requireAuth session) s session fun _ =>
      let ins : InsertConventionProject :=
        { conventionId := conventionId, projectId := body.projectId }
      let (cp, s') := createConventionProject s ins now
      (⟨201, conventionProjectJson cp⟩, s', session)
  | .usersIndex =>
    guarded (canManageUsers session) s session fun _ =>
      (⟨200, .arr ((getLocalUsers s).map localUserStrippedJson)⟩, s, session)
  | .usersCreate body =>
    guarded (canManageUsers session) s session fun _ =>
      match createLocalUser s body now with
      | .error _ =>
        (⟨500, .obj [("message", .str "Failed to create user")]⟩, s, session)
      | .ok (u, s') => (⟨201, localUserStrippedJson u⟩, s', session)
  | .usersUpdate id body =>
    guarded (canManageUsers session) s session fun _ =>
      match updateLocalUser s id body now with
      | none =>
        (⟨500, .obj [("message", .str "Failed to update user")]⟩, s, session)
      | some (u, s') => (⟨200, localUserStrippedJson u⟩, s', session)
  | .usersDestroy id =>
    guarded (canManageUsers session) s session fun _ =>
      (⟨204, .null⟩, deleteLocalUser s id, session)
  | .advancesIndex projectId =>
    guarded (canRead session) s session fun _ =>
      (⟨200, .arr ((getFinancialAdvances s projectId).map
                    financialAdvanceJson)⟩, s, session)
  | .advancesCreate projectId body =>
    guarded (canWrite session) s session fun _ =>
      let ins : InsertFinancialAdvance :=
        { projectId := projectId, referenceDate := body.referenceDate,
          engagement := body.engagement, payment := body.payment }
      let (a, s') := createFinancialAdvance s ins now
      (⟨201, financialAdvanceJson a⟩, s', session)

/-- The protected routes: everything except login and logout sits behind
`requireAuth` / `requireRole` middleware (and `GET /api/auth/user` itself
answers 401 without a session). -/
def protectedRoute : Request → Bool
  | .login _ _ => false
  | .logout => false
  | _ => true

/-! ## The §4.2 policy table, stated from the spec

These definitions follow the spec's words (not the code); they are the
comparison target for the authorization claims. -/

/-- The three operation classes of the §4.2 role policy table. -/
inductive OpClass where
  | readData : OpClass
  | writeData : OpClass
  | manageUsers : OpClass
  deriving Repr, DecidableEq

/-- The fixed role policy table of §4.2: read
Project/Convention/Partner/financial data is allowed to all three roles;
write (create/update/delete) of Project/Convention/Partner/junction data
is allowed to admin and user only; managing LocalUser accounts is allowed
to admin only. -/
def specAllows (role : String) (op : OpClass) : Bool :=
  match op with
  | .readData => role == "admin" || role == "user" || role == "superviseur"
  | .writeData => role == "admin" || role == "user"
  | .manageUsers => role == "admin"

/-- The chronological order requested through `sortOrder`: descending by
`createdAt` exactly when the parameter is `"desc"`, ascending otherwise
(in particular when it is absent or `"asc"`). -/
def chronoRel (sortOrder : Option String) : Project → Project → Prop :=
  if sortOrder == some "desc" then keyDesc (fun p => p.createdAt)
  else keyAsc (fun p => p.createdAt)

/-- The HTTP status corresponding to the spec's `Conflict` taxonomy kind
(§7, uniqueness violation). -/
def specConflictStatusCode : Nat := 409

/-- The HTTP status corresponding to the spec's `NotFound` taxonomy kind
(§7, referenced id absent). -/
def specNotFoundStatusCode : Nat := 404

/-! ## Concrete fixtures -/

def adminUser : LocalUser :=
  { id := 1, username := "admin", password := bcryptHash "admin123",
    role := "admin", createdAt := 0, updatedAt := 0 }

def supUser : LocalUser :=
  { id := 3, username := "superviseur1", password := bcryptHash "admin123",
    role := "superviseur", createdAt := 0, updatedAt := 0 }

def projA : Project :=
  { id := 1, identifier := "P-001", title := "Piste rurale",
    axis := "Axe 1", domain := "Infrastructures", region := "Fes-Meknes",
    province := "Sefrou", commune := "Azzaba", budget := 500,
    engagements := 0, payments := 0, physicalProgress := 0,
    status := "active", createdAt := 1, updatedAt := 1 }

def projB : Project :=
  { id := 2, identifier := "P-002", title := "Ecole communale",
    axis := "Axe 1", domain := "Education", region := "Fes-Meknes",
    province := "Sefrou", commune := "Azzaba", budget := 300,
    engagements := 0, payments := 0, physicalProgress := 0,
    status := "active", createdAt := 2, updatedAt := 2 }

def conv1 : Convention :=
  { id := 1, title := "Convention cadre", dateVisa := none,
    status := "pending", programme := "PDR 2024", documentUrl := none,
    createdAt := 1, updatedAt := 1 }

def partner1 : Partner :=
  { id := 1, name := "Conseil regional", type := "public", createdAt := 1 }

/-- A store populated with the fixtures above. -/
def store1 : Store :=
  { localUsers := [adminUser, supUser], projects := [projA, projB],
    conventions := [conv1], partners := [partner1],
    nextLocalUserId := 4, nextProjectId := 3, nextConventionId := 2,
    nextPartnerId := 2 }

/-- A create payload reusing the identifier of `projA`. -/
def insDup : InsertProject :=
  { identifier := "P-001", title := "Doublon", axis := "Axe 2",
    domain := "Eau", region := "Fes-Meknes", province := "Sefrou",
    commune := "Azzaba", budget := 100, engagements := 0, payments := 0,
    physicalProgress := 0, status := "active" }

/-- Two projects with equal budgets, inserted in the order
`projT1` then `projT2`. -/
def projT1 : Project :=
  { id := 11, identifier := "P-011", title := "Forage T1",
    axis := "Axe 3", domain := "Eau", region := "Fes-Meknes",
    province := "Sefrou", commune := "Azzaba", budget := 400,
    engagements := 0, payments := 0, physicalProgress := 0,
    status := "active", createdAt := 3, updatedAt := 3 }

def projT2 : Project :=
  { id := 12, identifier := "P-012", title := "Forage T2",
    axis := "Axe 3", domain := "Eau", region := "Fes-Meknes",
    province := "Sefrou", commune := "Azzaba", budget := 400,
    engagements := 0, payments := 0, physicalProgress := 0,
    status := "active", createdAt := 4, updatedAt := 4 }

/-- The ordering contract of the SQL emitted by
`DatabaseStorage.getProjects` for `sortBy="budget"`,
`sortOrder="desc"` — `SELECT ... FROM projects ORDER BY budget DESC`.
PostgreSQL guarantees only that the result is a permutation of the
selected rows that is non-increasing in the sort key; the query carries
no secondary sort key, so the relative order of rows with equal budgets
is unspecified, and every list satisfying this predicate is a permitted
result of the query. -/
def sqlBudgetDescResult (rows out : List Project) : Prop :=
  out.Perm rows ∧ List.Sorted (keyDesc fun p => p.budget) out

/-! ## Helper lemmas -/

lemma requireRole_pass {roles : List String} {u : LocalUser}
    (h : u.role ∈ roles) : requireRole roles (some u) = none := by
  simp only [requireRole]
  rw [if_pos]
  exact List.elem_iff.mpr h

lemma canWrite_pass {u : LocalUser}
    (h : u.role = "admin" ∨ u.role = "user") : canWrite (some u) = none := by
  apply requireRole_pass
  rcases h with h | h <;> simp [h]

lemma getProjects_eq_default (s : Store) (search : Option String)
    (ord : Option String) :
    getProjects s search none ord =
      sortKey (ord == some "desc") (fun p => p.createdAt)
        (searchFilter search s.projects) := rfl

lemma getProjects_eq_of_unknown_sortBy (s : Store) (search : Option String)
    (b : String) (ord : Option String)
    (hb : b ∉ (["identifier", "title", "axis", "domain",
                "budget"] : List String)) :
    getProjects s search (some b) ord =
      sortKey (ord == some "desc") (fun p => p.createdAt)
        (searchFilter search s.projects) := by
  simp only [getProjects]
  split
  · rfl
  · split <;> first | rfl | (exfalso; simp_all)

lemma find?_append_none {α : Type} (p : α → Bool) {l₁ : List α}
    (l₂ : List α) (h : l₁.find? p = none) :
    (l₁ ++ l₂).find? p = l₂.find? p := by
  induction l₁ with
  | nil => rfl
  | cons x xs ih =>
    rcases hx : p x with _ | _
    · rw [List.find?_cons_of_neg _ (by simp [hx])] at h
      rw [List.cons_append, List.find?_cons_of_neg _ (by simp [hx])]
      exact ih h
    · rw [List.find?_cons_of_pos _ hx] at h
      cases h

lemma bcryptHash_inj {w p : String} (h : bcryptHash w = bcryptHash p) :
    w = p := by
  have hd := congrArg String.data h
  simp only [bcryptHash, String.data_append] at hd
  exact String.ext (List.append_cancel_left hd)

lemma bcryptHash_ne (p : String) : bcryptHash p ≠ p := by
  intro h
  have hl := congrArg String.length h
  rw [bcryptHash, String.length_append] at hl
  have h7 : ("$2b$10$" : String).length = 7 := rfl
  omega

/-! ## Claims -/

/-- C3: a request with no session principal to any protected route is
answered 401 Unauthorized, with the store and session untouched,
whatever the payload. -/
theorem no_session_rejected_store_untouched (req : Request) (s : Store)
    (now : Int) (h : protectedRoute req = true) :
    handle req none s now = (unauthorizedResponse, s, none) := by
  cases req <;> first | rfl | simp [protectedRoute] at h

/-- Witness for C3: the project listing route over an empty store. -/
theorem no_session_rejected_store_untouched_witness :
    protectedRoute (.projectsIndex none none none) = true ∧
    handle (.projectsIndex none none none) none {} 0 =
      (unauthorizedResponse, {}, none) :=
  ⟨rfl, no_session_rejected_store_untouched _ _ _ rfl⟩

/-- C1: the §4.2 policy table forbids junction writes to the superviseur
role, but the junction-create routes are gated only by `requireAuth`, so
a superviseur request to create a ProjectPartner or a ConventionProject
is answered 201 Created (not 403 Forbidden) and the junction row is
inserted. -/
theorem superviseur_junction_write_allowed_by_code :
    specAllows "superviseur" OpClass.writeData = false ∧
    (handle (.projectPartnersCreate 1
        { partnerId := 1, year := 2024, plannedContribution := 1000,
          actualContribution := 0, status := "pending" })
      (some supUser) store1 5).1.status = 201 ∧
    (handle (.conventionProjectsCreate 1 { projectId := 2 })
      (some supUser) store1 5).1.status = 201 ∧
    (handle (.projectPartnersCreate 1
        { partnerId := 1, year := 2024, plannedContribution := 1000,
          actualContribution := 0, status := "pending" })
      (some supUser) store1 5).2.1 ≠ store1 :=
  ⟨rfl, rfl, rfl, by decide⟩

/-- C2: a successful login stores the complete user record (bcrypt hash
included) in the session, and `GET /api/auth/user` serializes that record
back verbatim, so the response body carries the stored password field. -/
theorem authUser_response_contains_password_hash :
    (handle (.login "admin" "admin123") none store1 0).2.2 =
      some adminUser ∧
    (handle .authUser (some adminUser) store1 0).1 =
      ⟨200, localUserFullJson adminUser⟩ ∧
    ∃ fields, localUserFullJson adminUser = Json.obj fields ∧
      ("password", Json.str (bcryptHash "admin123")) ∈ fields := by
  refine ⟨rfl, rfl, _, rfl, ?_⟩
  simp [localUserFullJson, adminUser]

/-- C4 counterexample: with two projects created at instants 1 and 2, the
default listing comes back `[projA, projB]` — ascending, hence not
ordered by `createdAt` descending as claimed. -/
theorem getProjects_default_not_desc :
    getProjects store1 none none none = [projA, projB] ∧
    ¬ List.Sorted (keyDesc fun p => p.createdAt)
        (getProjects store1 none none none) :=
  ⟨rfl, by decide⟩

/-- C4 amended: with no sortBy and no sortOrder, `getProjects` returns
the Project records ordered by `createdAt` in ascending order (the
declared default sort order is `"asc"`). -/
theorem getProjects_default_sorted_asc (s : Store) :
    List.Sorted (keyAsc fun p => p.createdAt)
      (getProjects s none none none) ∧
    (getProjects s none none none).Perm s.projects := by
  have heq : getProjects s none none none =
      List.insertionSort (keyAsc fun p => p.createdAt) s.projects := rfl
  rw [heq]
  exact ⟨List.sorted_insertionSort _ _, List.perm_insertionSort _ _⟩

/-- C9 counterexample: over a table holding the two equal-budget
projects in insertion order `[projT1, projT2]`, the tie-reversed output
`[projT2, projT1]` also satisfies the ordering contract of the emitted
query (`ORDER BY budget DESC`, no secondary key), so it is a permitted
result in which two records with equal budget do not appear in their
insertion order — the claimed stable tie-break is not guaranteed by the
code. -/
theorem budget_desc_tie_order_not_guaranteed :
    sqlBudgetDescResult [projT1, projT2] [projT2, projT1] ∧
    projT1.budget = projT2.budget ∧
    [projT2, projT1] ≠ [projT1, projT2] :=
  ⟨⟨List.Perm.swap projT1 projT2 [], by decide⟩, rfl, by decide⟩

/-- C9 amended: `getProjects(sortBy="budget", sortOrder="desc")` returns
the Project records in non-increasing budget order, as a permutation of
the table — the guarantee of the emitted `ORDER BY budget DESC`; the
relative order of equal-budget records is unspecified, so no
insertion-order tie-break holds. -/
theorem getProjects_budget_desc_sorted (s : Store) :
    sqlBudgetDescResult s.projects
      (getProjects s none (some "budget") (some "desc")) := by
  have heq : getProjects s none (some "budget") (some "desc") =
      List.insertionSort (keyDesc fun p => p.budget) s.projects := rfl
  rw [sqlBudgetDescResult, heq]
  exact ⟨List.perm_insertionSort _ _, List.sorted_insertionSort _ _⟩

/-- C10: a `sortBy` outside the whitelisted columns neither fails nor
ignores the request — the result is the searched rows ordered by
`createdAt`, descending exactly when `sortOrder` is `"desc"` and
ascending otherwise (in particular when it is `"asc"` or absent). -/
theorem getProjects_unknown_sortBy_chrono (s : Store)
    (search : Option String) (b : String) (ord : Option String)
    (hb : b ∉ (["identifier", "title", "axis", "domain",
                "budget"] : List String)) :
    List.Sorted (chronoRel ord) (getProjects s search (some b) ord) ∧
    (getProjects s search (some b) ord).Perm
      (searchFilter search s.projects) := by
  rw [getProjects_eq_of_unknown_sortBy s search b ord hb]
  rcases hd : (ord == some "desc") with _ | _ <;>
    simp only [sortKey, chronoRel, hd, if_true, if_false,
               Bool.false_eq_true, ite_false, ite_true] <;>
    exact ⟨List.sorted_insertionSort _ _, List.perm_insertionSort _ _⟩

/-- Witness for C10: the unknown column "region" over the fixture store
with no explicit order. -/
theorem getProjects_unknown_sortBy_chrono_witness :
    ("region" ∉ (["identifier", "title", "axis", "domain",
                  "budget"] : List String)) ∧
    (List.Sorted (chronoRel none)
        (getProjects store1 none (some "region") none) ∧
     (getProjects store1 none (some "region") none).Perm
        (searchFilter none store1.projects)) :=
  ⟨by decide,
   getProjects_unknown_sortBy_chrono store1 none "region" none (by decide)⟩

/-- C5 counterexample: at a concrete duplicate-identifier create request
the response status is 500 (the generic catch-all), not the spec's
Conflict status; the store is left unchanged. -/
theorem duplicate_identifier_create_not_conflict :
    (handle (.projectsCreate insDup) (some adminUser) store1 5).1.status
      = 500 ∧
    (handle (.projectsCreate insDup) (some adminUser) store1 5).1.status
      ≠ specConflictStatusCode ∧
    (handle (.projectsCreate insDup) (some adminUser) store1 5).2.1
      = store1 :=
  ⟨rfl, by decide, rfl⟩

/-- C5 amended: creating a Project whose identifier already exists fails
without mutating the store, but the failure is reported as the generic
500 "Failed to create project" response rather than Conflict. -/
theorem duplicate_identifier_create_fails_500 (s : Store)
    (ins : InsertProject) (u : LocalUser) (now : Int)
    (hdup : ∃ p, p ∈ s.projects ∧ p.identifier = ins.identifier)
    (hrole : u.role = "admin" ∨ u.role = "user") :
    handle (.projectsCreate ins) (some u) s now =
      (⟨500, .obj [("message", .str "Failed to create project")]⟩,
       s, some u) := by
  have hw := canWrite_pass hrole
  have hany : s.projects.any (fun p => p.identifier == ins.identifier)
      = true := by
    rcases hdup with ⟨p, hp, he⟩
    exact List.any_eq_true.mpr ⟨p, hp, beq_iff_eq.mpr he⟩
  simp [handle, guarded, hw, createProject, hany]

/-- Witness for C5 amended: the duplicate of `projA`'s identifier. -/
theorem duplicate_identifier_create_fails_500_witness :
    handle (.projectsCreate insDup) (some adminUser) store1 5 =
      (⟨500, .obj [("message", .str "Failed to create project")]⟩,
       store1, some adminUser) :=
  duplicate_identifier_create_fails_500 store1 insDup adminUser 5
    ⟨projA, by simp [store1], rfl⟩ (Or.inl rfl)

/-- C6 counterexample: updating a Project id absent from the table is
answered 200 with an empty body (`res.json(undefined)`), not the spec's
NotFound status; the store is unchanged. -/
theorem update_missing_project_not_404 :
    (handle (.projectsUpdate 99 {}) (some adminUser) store1 5).1.status
      = 200 ∧
    (handle (.projectsUpdate 99 {}) (some adminUser) store1 5).1.status
      ≠ specNotFoundStatusCode ∧
    (handle (.projectsUpdate 99 {}) (some adminUser) store1 5).2.1
      = store1 :=
  ⟨rfl, by decide, rfl⟩

/-- C6 amended: updating a non-existent Project id leaves the store
unchanged but fails silently — the route answers 200 with an empty body
instead of NotFound. -/
theorem update_missing_project_silent_200 (s : Store) (i : Nat)
    (q : ProjectPatch) (u : LocalUser) (now : Int)
    (hid : ∀ p, p ∈ s.projects → p.id ≠ i)
    (hrole : u.role = "admin" ∨ u.role = "user") :
    handle (.projectsUpdate i q) (some u) s now =
      (⟨200, .null⟩, s, some u) := by
  have hw := canWrite_pass hrole
  have hf : s.projects.find? (fun p => p.id == i) = none :=
    List.find?_eq_none.mpr (fun p hp => by simp [hid p hp])
  simp [handle, guarded, hw, updateProject, hf]

/-- Witness for C6 amended: id 99 over the fixture store. -/
theorem update_missing_project_silent_200_witness :
    handle (.projectsUpdate 99 {}) (some adminUser) store1 5 =
      (⟨200, .null⟩, store1, some adminUser) :=
  update_missing_project_silent_200 store1 99 {} adminUser 5
    (by decide) (Or.inl rfl)

/-- C7 counterexample: deleting a Project id absent from the table is
answered 204 No Content — success — rather than the spec's NotFound;
the store is unchanged. -/
theorem delete_missing_project_not_404 :
    (handle (.projectsDestroy 99) (some adminUser) store1 5).1.status
      = 204 ∧
    (handle (.projectsDestroy 99) (some adminUser) store1 5).1.status
      ≠ specNotFoundStatusCode ∧
    (handle (.projectsDestroy 99) (some adminUser) store1 5).2.1
      = store1 :=
  ⟨rfl, by decide, by decide⟩

/-- C7 amended: deleting a non-existent Project id reports success (204)
and leaves the store unchanged; no NotFound is produced. -/
theorem delete_missing_project_reports_204 (s : Store) (i : Nat)
    (u : LocalUser) (now : Int)
    (hid : ∀ p, p ∈ s.projects → p.id ≠ i)
    (hrole : u.role = "admin" ∨ u.role = "user") :
    handle (.projectsDestroy i) (some u) s now =
      (⟨204, .null⟩, s, some u) := by
  have hw := canWrite_pass hrole
  have hfe : s.projects.filter (fun p => !(p.id == i)) = s.projects :=
    List.filter_eq_self.mpr (fun p hp => by simp [hid p hp])
  simp [handle, guarded, hw, deleteProject, hfe]

/-- Witness for C7 amended: id 99 over the fixture store. -/
theorem delete_missing_project_reports_204_witness :
    handle (.projectsDestroy 99) (some adminUser) store1 5 =
      (⟨204, .null⟩, store1, some adminUser) :=
  delete_missing_project_reports_204 store1 99 adminUser 5
    (by decide) (Or.inl rfl)

/-- C8: creating a LocalUser with a fresh username stores a bcrypt hash
(never the plaintext), after which validating the right password returns
the user and validating any other password fails. -/
theorem create_then_validate_localUser (s : Store)
    (username p role : String) (now : Int)
    (hfresh : ∀ u, u ∈ s.localUsers → u.username ≠ username) :
    ∃ u s', createLocalUser s ⟨username, p, role⟩ now = .ok (u, s') ∧
      validateLocalUser s' username p = some u ∧
      (∀ w, w ≠ p → validateLocalUser s' username w = none) ∧
      u.password = bcryptHash p ∧ u.password ≠ p := by
  have hany : s.localUsers.any (fun u => u.username == username)
      = false := by
    rw [List.any_eq_false]
    intro u hu
    simp [hfresh u hu]
  have hnone : s.localUsers.find? (fun u => u.username == username)
      = none :=
    List.find?_eq_none.mpr (fun u hu => by simp [hfresh u hu])
  set u0 : LocalUser :=
    { id := s.nextLocalUserId, username := username,
      password := bcryptHash p, role := role,
      createdAt := now, updatedAt := now } with hu0
  refine ⟨u0,
          { s with localUsers := s.localUsers ++ [u0],
                   nextLocalUserId := s.nextLocalUserId + 1 },
          ?_, ?_, ?_, rfl, bcryptHash_ne p⟩
  · simp [createLocalUser, hany]
  · simp only [validateLocalUser]
    rw [find?_append_none _ _ hnone]
    simp [bcryptCompare]
  · intro w hw
    simp only [validateLocalUser]
    rw [find?_append_none _ _ hnone]
    simp only [List.find?_cons, beq_self_eq_true, cond_true]
    rw [if_neg]
    simp only [bcryptCompare, beq_iff_eq, hu0]
    exact fun hc => hw (bcryptHash_inj hc.symm)

/-- Witness for C8: user "alice" with password "p1" over the empty
store. -/
theorem create_then_validate_localUser_witness :
    ∃ u s', createLocalUser {} ⟨"alice", "p1", "user"⟩ 0 = .ok (u, s') ∧
      validateLocalUser s' "alice" "p1" = some u ∧
      (∀ w, w ≠ "p1" → validateLocalUser s' "alice" w = none) ∧
      u.password = bcryptHash "p1" ∧ u.password ≠ "p1" :=
  create_then_validate_localUser {} "alice" "p1" "user" 0
    (fun u hu => absurd hu (List.not_mem_nil u))

end SuiviPDR
